import Mathlib

/-!
# TranslatR — verification of the request-lifecycle controller

Shallow embedding of `src/app/components/TextSlangTranslator.tsx`.

The component runs in a single-threaded, event-driven runtime.  We model the
React component's state variables together with the runtime bookkeeping
(pending fetches, aborted controllers, queued timers) as one record, and each
event handler as a pure state transformer.  The async function
`handleTranslate` is split at its single suspension region (the
`await fetch` / `await response.json()` pair) into a synchronous start phase
(`handleTranslate`) and a completion phase (`resolveAttempt`) that covers the
continuation, the `catch`, and the `finally` block.

Two JavaScript/React semantic points the embedding is careful about, since
claims hinge on them:

* A `return` inside a `catch` clause does **not** skip the `finally` block:
  even on the `AbortError` early return, `setLoading(false)` and
  `abortControllerRef.current = null` still execute, and the assignment to the
  ref is unconditional (no identity check against this attempt's controller).
* React's `useState` setters do not mutate the closure variables of the
  current render.  `handleLevelSelect` calls `setSelectedLevel(levelId)` and
  then `handleTranslate(true)` synchronously; the called `handleTranslate` is
  the one from the current render, whose closure variable `selectedLevel`
  still holds the previous value.  We therefore pass the closure's view of
  `selectedLevel` to `handleTranslate` explicitly as the argument `sel`.

Abort controllers are identified by the `Nat` at which they were allocated
(`nextId` counts allocations); `aborted` is the set of controller ids whose
`abort()` was called.  A fetch bound to an aborted controller rejects with
`AbortError`; this is reflected in `resolveAttempt` by checking membership of
the attempt's controller id in `aborted`.
-/

/-- Source: `interface SlangLevel`. -/
structure SlangLevel where
  id : String
  label : String
  prompt : String
deriving DecidableEq

/-- Source: `const slangLevels: SlangLevel[]` — the fixed catalog. -/
def slangLevels : List SlangLevel :=
  [ { id := "mild", label := "Mild Slang", prompt := "Convert to mild internet slang" },
    { id := "medium", label := "Medium Slang", prompt := "Use moderate internet slang and abbreviations" },
    { id := "heavy", label := "Heavy Slang", prompt := "Use heavy internet slang and abbreviations" },
    { id := "extreme", label := "Extreme Slang", prompt := "Use extreme internet slang with lots of emoji" },
    { id := "crazy", label := "Crazy Slang", prompt := "Go absolutely wild with internet slang and emoji" } ]

/-- The body of one in-flight `fetch('/api/translate', ...)`: the controller id
it is bound to (`signal: abortControllerRef.current.signal`) and the JSON body
`{ text, level }`, where `level` is the resolved level's `prompt` string. -/
structure Attempt where
  cid : Nat
  text : String
  level : String
deriving DecidableEq

/-- The externally supplied resolution of a fetch that was not aborted:
HTTP `ok`/`status`, and the `translatedText` field of the parsed JSON body
(`none` when the field is absent). -/
structure ApiResponse where
  ok : Bool
  status : Nat
  translatedText : Option String
deriving DecidableEq

/-- Outcome of `navigator.clipboard.writeText`, supplied by the host. -/
inductive ClipboardOutcome where
  | success
  | failure
deriving DecidableEq

/-- The component's `useState` variables, the `abortControllerRef` ref, and the
runtime bookkeeping: allocated/aborted controllers, in-flight fetches, the
queued `requestAnimationFrame`/`setTimeout(animateText, 100)` chain, and the
queued `setTimeout(() => setCopied(false), 2000)` (recorded with its delay). -/
structure CState where
  inputText : String
  translatedText : String
  loading : Bool
  selectedLevel : String
  isFilterOpen : Bool
  copied : Bool
  isClient : Bool
  error : String
  abortRef : Option Nat
  nextId : Nat
  aborted : List Nat
  pending : List Attempt
  animScheduled : Bool
  copyTimer : Option Nat
deriving DecidableEq

/-- The `useState` initial values; `abortControllerRef` starts `null` and no
fetch or timer is outstanding. -/
def initState : CState :=
  { inputText := ""
  , translatedText := ""
  , loading := false
  , selectedLevel := "medium"
  , isFilterOpen := false
  , copied := false
  , isClient := false
  , error := ""
  , abortRef := none
  , nextId := 0
  , aborted := []
  , pending := []
  , animScheduled := false
  , copyTimer := none }

/-- JavaScript `String.prototype.trim`: strip leading and trailing
whitespace.  (Defined structurally over the character list so that concrete
traces evaluate inside the kernel.) -/
def jsTrim (s : String) : String :=
  String.mk ((s.data.dropWhile Char.isWhitespace).reverse.dropWhile Char.isWhitespace).reverse

/-- The mount effect's `setIsClient(true)`. -/
def mountEffect (s : CState) : CState :=
  { s with isClient := true }

/-- The `onChange` handler of the textarea: `setInputText`. -/
def setInputText (s : CState) (t : String) : CState :=
  { s with inputText := t }

/-- Synchronous start phase of `handleTranslate(forceTranslate)`, up to the
`await fetch` suspension.  `sel` is the value of the render closure's
`selectedLevel` variable: for a direct invocation it equals
`s.selectedLevel`, but `handleLevelSelect` passes the pre-update value (see
the module comment on React closures).

Covers: the guard `if (!inputText.trim() || (loading && !forceTranslate))
return;`, aborting the controller currently in the ref, installing a fresh
controller, `setLoading(true)`, `setError('')`, and the catalog lookup.  A
failed lookup throws `Error('Invalid slang level')` before the fetch, which is
handled synchronously by the same `catch`/`finally` (the error's name is not
`AbortError`).  A successful lookup issues the fetch: the attempt is appended
to `pending`. -/
def handleTranslate (s : CState) (force : Bool) (sel : String) : CState :=
  if jsTrim s.inputText = "" ∨ (s.loading = true ∧ force = false) then s
  else
    let abortedNow := match s.abortRef with
      | some c => c :: s.aborted
      | none => s.aborted
    let cid := s.nextId
    let s1 : CState :=
      { s with aborted := abortedNow
             , abortRef := some cid
             , nextId := s.nextId + 1
             , loading := true
             , error := "" }
    match slangLevels.find? (fun l => l.id == sel) with
    | none =>
        { s1 with error := "Invalid slang level"
                , translatedText := ""
                , loading := false
                , abortRef := none }
    | some cfg =>
        { s1 with pending := s1.pending ++ [{ cid := cid, text := s1.inputText, level := cfg.prompt }] }

/-- Completion phase of `handleTranslate` for the attempt `a`: the continuation
after the fetch/json awaits, the `catch`, and the `finally`.

If `a`'s controller was aborted, the promise rejects with `AbortError`: the
`catch` hits `if (error.name === 'AbortError') return;` — but the `finally`
block still runs, so `loading` is set to `false` and `abortControllerRef` is
nulled unconditionally.  Otherwise the attempt resolves with `r`: non-2xx and
missing/empty `translatedText` throw and reach the generic error branch of the
`catch`; a non-empty `translatedText` takes the success branch
(`setTranslatedText`, `setIsFilterOpen(false)`, and — when `isClient` — the
deferred `animateText` scheduling).  In every path the `finally` runs last. -/
def resolveAttempt (s : CState) (a : Attempt) (r : ApiResponse) : CState :=
  if a.cid ∈ s.aborted then
    { s with loading := false, abortRef := none }
  else if r.ok = false then
    { s with error := "Translation failed: " ++ toString r.status
           , translatedText := ""
           , loading := false
           , abortRef := none }
  else if r.translatedText = none ∨ r.translatedText = some "" then
    { s with error := "No translation received"
           , translatedText := ""
           , loading := false
           , abortRef := none }
  else
    { s with translatedText := r.translatedText.getD ""
           , isFilterOpen := false
           , animScheduled := s.isClient
           , loading := false
           , abortRef := none }

/-- Resolution event for the `i`-th in-flight fetch: it leaves the in-flight
set and its continuation runs to completion atomically (microtasks drain
before the next event in the single-threaded runtime). -/
def resolveStep (s : CState) (i : Nat) (r : ApiResponse) : CState :=
  match s.pending[i]? with
  | none => s
  | some a => resolveAttempt { s with pending := s.pending.eraseIdx i } a r

/-- Source: `handleLevelSelect(levelId)` — `setSelectedLevel(levelId)` updates
the state for the next render, then `handleTranslate(true)` is invoked from
the *current* render, whose closure still reads the previous `selectedLevel`
(passed here as `s.selectedLevel`). -/
def handleLevelSelect (s : CState) (levelId : String) : CState :=
  let s1 : CState := { s with selectedLevel := levelId }
  if jsTrim s.inputText = "" then s1
  else handleTranslate s1 true s.selectedLevel

/-- Source: `handleCopy` — guarded by `if (!isClient || !translatedText)
return;`; a successful clipboard write sets `copied` and queues
`setTimeout(() => setCopied(false), 2000)`; a rejection sets the error
message (and nothing else). -/
def handleCopy (s : CState) (out : ClipboardOutcome) : CState :=
  if s.isClient = false ∨ s.translatedText = "" then s
  else
    match out with
    | .success => { s with copied := true, copyTimer := some 2000 }
    | .failure => { s with error := "Failed to copy text" }

/-- Firing of the copy timer: its callback is `() => setCopied(false)`. -/
def fireCopyTimer (s : CState) : CState :=
  { s with copied := false, copyTimer := none }

/-- Discrete events of the single-threaded runtime, in dispatch order. -/
inductive Event where
  | mount
  | setInput (t : String)
  | translate (force : Bool)
  | levelSelect (levelId : String)
  | resolve (i : Nat) (r : ApiResponse)
  | copy (out : ClipboardOutcome)
  | copyTimerFire
deriving DecidableEq

/-- One event dispatched against the component. -/
def step (s : CState) (e : Event) : CState :=
  match e with
  | .mount => mountEffect s
  | .setInput t => setInputText s t
  | .translate force => handleTranslate s force s.selectedLevel
  | .levelSelect levelId => handleLevelSelect s levelId
  | .resolve i r => resolveStep s i r
  | .copy out => handleCopy s out
  | .copyTimerFire => fireCopyTimer s

/-- Run a sequence of events from a state. -/
def run (s : CState) (es : List Event) : CState :=
  es.foldl step s

/-- Visual state of one rendered line element: vertical offset and opacity. -/
structure VisualState where
  y : ℚ
  opacity : ℚ
deriving DecidableEq

/-- A `gsap.fromTo` tween over `count` targets: every target is set to
`fromVars` immediately, then tweened to `toVars`; the i-th target's tween
starts `stagger * i` after invocation and lasts `duration`. -/
structure AnimSchedule where
  count : Nat
  fromVars : VisualState
  toVars : VisualState
  duration : ℚ
  stagger : ℚ
  ease : String
deriving DecidableEq

/-- The `gsap.fromTo(elements, {y: 50, opacity: 0}, {y: 0, opacity: 1,
duration: 0.5, stagger: 0.1, ease: 'power1.out'})` call of `animateText`. -/
def gsapFromTo (n : Nat) : AnimSchedule :=
  { count := n
  , fromVars := { y := 50, opacity := 0 }
  , toVars := { y := 0, opacity := 1 }
  , duration := 1/2
  , stagger := 1/10
  , ease := "power1.out" }

/-- Start time of the i-th element's tween within a schedule. -/
def startTime (sched : AnimSchedule) (i : Nat) : ℚ :=
  sched.stagger * i

/-- Source: `animateText` — the guards `if (!isClient || !textRef.current ||
!translatedText) return;` and `if (elements.length === 0) return;`, then the
`fromTo` call.  `hasTextRef` models `textRef.current !== null`; `elements`
models `Array.from(textRef.current.children)`. -/
def animateText (isClient hasTextRef : Bool) (translatedText : String)
    (elements : List String) : Option AnimSchedule :=
  if isClient = false ∨ hasTextRef = false ∨ translatedText = "" then none
  else if elements.length = 0 then none
  else some (gsapFromTo elements.length)

/-- The immediate effect of `fromTo` on its targets: before any tween plays,
every element's visual state is set to the `from` vars. -/
def resetStates (sched : AnimSchedule) : List VisualState :=
  List.replicate sched.count sched.fromVars

/-- One invocation of `animateText` against component state `s`, with `vs` the
elements' current visual states.  The handler performs no React state update
(the source function only reads state and calls `gsap.fromTo`), so the
component state is returned unchanged; when the guards pass, the elements are
reset to the `from` vars and the tween schedule is returned. -/
def invokeAnimator (s : CState) (hasTextRef : Bool) (elements : List String)
    (vs : List VisualState) : CState × List VisualState × Option AnimSchedule :=
  match animateText s.isClient hasTextRef s.translatedText elements with
  | none => (s, vs, none)
  | some sched => (s, resetStates sched, some sched)

/-- Source: `renderTranslatedText` — `null` for empty text, otherwise one line
element per segment of `text.split('\n')`. -/
def renderedLines (text : String) : List String :=
  if text = "" then [] else text.splitOn "\n"

/-! ## Helper lemmas -/

lemma handleTranslate_copied (s : CState) (force : Bool) (sel : String) :
    (handleTranslate s force sel).copied = s.copied := by
  unfold handleTranslate
  split
  · rfl
  · split <;> split <;> rfl

lemma resolveAttempt_copied (s : CState) (a : Attempt) (r : ApiResponse) :
    (resolveAttempt s a r).copied = s.copied := by
  unfold resolveAttempt
  split
  · rfl
  · split
    · rfl
    · split <;> rfl

lemma resolveStep_copied (s : CState) (i : Nat) (r : ApiResponse) :
    (resolveStep s i r).copied = s.copied := by
  unfold resolveStep
  split
  · rfl
  · rw [resolveAttempt_copied]

lemma handleLevelSelect_copied (s : CState) (levelId : String) :
    (handleLevelSelect s levelId).copied = s.copied := by
  unfold handleLevelSelect
  split
  · rfl
  · rw [handleTranslate_copied]

/-! ## Claim theorems -/

/-- A late, would-be-successful response for a superseded attempt. -/
def respLate : ApiResponse :=
  { ok := true, status := 200, translatedText := some "omg hello fr" }

/-- A successful response used for non-cancelled completions. -/
def respDone : ApiResponse :=
  { ok := true, status := 200, translatedText := some "done" }

/-- State after two rapid `translate(force=true)` calls on input "hello":
attempt 0 (controller 0) has been superseded by attempt 1 (controller 1). -/
def c1Before : CState :=
  run initState [.mount, .setInput "hello", .translate true, .translate true]

/-- State after the superseded attempt 0's fetch rejects with `AbortError`. -/
def c1After : CState :=
  step c1Before (.resolve 0 respLate)

/-- Claim C1: a cancelled (superseded) translate attempt's completion is
claimed to leave the state untouched — no `loading := false`, no `error`, no
`translatedText` change.  The code violates this: the `finally` block runs
even after the `AbortError` early return, so the cancelled attempt 0 sets
`loading` to `false` and nulls the handle reference (which at that point holds
the newer attempt 1's controller) while attempt 1 is still in flight; `error`
and `translatedText` are indeed untouched. -/
theorem c1_cancelled_completion_still_runs_finally :
    (c1Before.pending.map Attempt.cid = [0, 1]
      ∧ 0 ∈ c1Before.aborted ∧ ¬ 1 ∈ c1Before.aborted
      ∧ c1Before.loading = true ∧ c1Before.abortRef = some 1)
    ∧ (c1After.loading = false ∧ c1After.abortRef = none)
    ∧ c1After.error = c1Before.error
    ∧ c1After.translatedText = c1Before.translatedText
    ∧ c1After.pending.map Attempt.cid = [1] := by
  decide

/-- State after: translate A (cid 0), translate B (cid 1, force — aborts A),
A's `AbortError` completion (its `finally` nulls the ref holding B's
controller and resets `loading`), then a plain `translate()` C (cid 2): with
the ref null and `loading` false, C aborts nothing. -/
def c2State : CState :=
  run initState [.mount, .setInput "hi", .translate true, .translate true,
    .resolve 0 respLate, .translate false]

/-- Claim C2: at most one non-cancelled pending request handle is claimed to
exist at any instant.  The code violates this: after the interleaving above,
attempts with controllers 1 and 2 are simultaneously in flight and neither
controller has been aborted. -/
theorem c2_two_noncancelled_pending_attempts :
    c2State.pending.map Attempt.cid = [1, 2]
    ∧ (∀ a ∈ c2State.pending, ¬ a.cid ∈ c2State.aborted) := by
  decide

/-- Same interleaving as for C2: attempt 1 is still in flight, non-cancelled,
and the stored handle is attempt 2's controller. -/
def c3Before : CState :=
  run initState [.mount, .setInput "hi", .translate true, .translate true,
    .resolve 0 respLate, .translate false]

/-- State after attempt 1 resolves successfully (non-cancelled). -/
def c3After : CState :=
  step c3Before (.resolve 0 respDone)

/-- Claim C3: on a non-cancelled completion the stored pending-handle
reference is claimed to be cleared only if it still refers to that same
attempt's handle.  The code violates this: the `finally` block nulls
`abortControllerRef` unconditionally, so attempt 1's completion clears the
ref even though it holds the newer attempt 2's controller, while attempt 2 is
still in flight and non-cancelled (and can now no longer be cancelled). -/
theorem c3_noncancelled_completion_clears_newer_handle :
    (c3Before.pending.map Attempt.cid = [1, 2]
      ∧ ¬ 1 ∈ c3Before.aborted
      ∧ c3Before.abortRef = some 2)
    ∧ c3After.abortRef = none
    ∧ c3After.pending.map Attempt.cid = [2]
    ∧ ¬ 2 ∈ c3After.aborted := by
  decide

/-- State after `handleLevelSelect("heavy")` with `selectedLevel = "medium"`
and `inputText = "hello"`. -/
def c4State : CState :=
  step (run initState [.mount, .setInput "hello"]) (.levelSelect "heavy")

/-- Claim C4: selecting a level with non-empty input is claimed to immediately
issue a request carrying the newly selected level's prompt.  The code violates
this: `handleTranslate(true)` is invoked from the same render, whose closure
still reads the previous `selectedLevel`, so the issued request carries the
previous level's prompt ("medium"), not the newly selected one ("heavy"). -/
theorem c4_level_select_sends_stale_prompt :
    c4State.selectedLevel = "heavy"
    ∧ c4State.pending.map Attempt.level = ["Use moderate internet slang and abbreviations"]
    ∧ (slangLevels.find? (fun l => l.id == "heavy")).map SlangLevel.prompt
        = some "Use heavy internet slang and abbreviations"
    ∧ c4State.pending.map Attempt.level ≠ ["Use heavy internet slang and abbreviations"] := by
  decide

/-- Claim C5: when the trimmed input is empty, `translate` is a no-op (state
unchanged, no request issued) regardless of the force flag; and when
`loading` is true and force is false, `translate` is likewise a no-op. -/
theorem c5_translate_noop_on_empty_or_loading :
    (∀ (s : CState) (force : Bool) (sel : String),
        jsTrim s.inputText = "" → handleTranslate s force sel = s)
    ∧ (∀ (s : CState) (sel : String),
        s.loading = true → handleTranslate s false sel = s) := by
  constructor
  · intro s force sel h
    unfold handleTranslate
    rw [if_pos (Or.inl h)]
  · intro s sel h
    unfold handleTranslate
    rw [if_pos (Or.inr ⟨h, rfl⟩)]

/-- A state whose input is whitespace-only (trims to empty). -/
def c5StateA : CState :=
  { initState with inputText := "   " }

/-- A loading state with non-empty input. -/
def c5StateB : CState :=
  { initState with inputText := "hi", loading := true }

/-- Witness for C5 at concrete states. -/
theorem c5_witness :
    handleTranslate c5StateA true "medium" = c5StateA
    ∧ handleTranslate c5StateB false "medium" = c5StateB :=
  ⟨c5_translate_noop_on_empty_or_loading.1 c5StateA true "medium" (by decide),
   c5_translate_noop_on_empty_or_loading.2 c5StateB "medium" rfl⟩

/-- Claim C6: every non-cancelled failing completion — HTTP non-2xx, or 2xx
with an absent or empty `translatedText` field — sets `error` to the
corresponding message ("Translation failed: {status}" resp. "No translation
received"), clears `translatedText`, and sets `loading` to false. -/
theorem c6_failing_completion_sets_error :
    ∀ (s : CState) (a : Attempt) (r : ApiResponse), ¬ a.cid ∈ s.aborted →
      ((r.ok = false →
          (resolveAttempt s a r).error = "Translation failed: " ++ toString r.status
          ∧ (resolveAttempt s a r).translatedText = ""
          ∧ (resolveAttempt s a r).loading = false)
        ∧ (r.ok = true → (r.translatedText = none ∨ r.translatedText = some "") →
          (resolveAttempt s a r).error = "No translation received"
          ∧ (resolveAttempt s a r).translatedText = ""
          ∧ (resolveAttempt s a r).loading = false)) := by
  intro s a r hab
  constructor
  · intro hok
    unfold resolveAttempt
    rw [if_neg hab, if_pos hok]
    exact ⟨rfl, rfl, rfl⟩
  · intro hok hempty
    have hok2 : ¬ (r.ok = false) := by rw [hok]; decide
    unfold resolveAttempt
    rw [if_neg hab, if_neg hok2, if_pos hempty]
    exact ⟨rfl, rfl, rfl⟩

/-- A state with an in-flight attempt whose controller (id 0) is not
aborted. -/
def c6State : CState :=
  { initState with loading := true, abortRef := some 0 }

/-- The attempt completing in the C6 witness. -/
def c6Attempt : Attempt :=
  { cid := 0, text := "hi", level := "Use moderate internet slang and abbreviations" }

/-- Witness for C6: a 500 response and a 200 response missing the field. -/
theorem c6_witness :
    (resolveAttempt c6State c6Attempt
        { ok := false, status := 500, translatedText := none }).error
      = "Translation failed: " ++ toString 500
    ∧ (resolveAttempt c6State c6Attempt
        { ok := true, status := 200, translatedText := none }).error
      = "No translation received" :=
  ⟨((c6_failing_completion_sets_error c6State c6Attempt
      { ok := false, status := 500, translatedText := none } (by decide)).1 rfl).1,
   ((c6_failing_completion_sets_error c6State c6Attempt
      { ok := true, status := 200, translatedText := none } (by decide)).2 rfl (Or.inl rfl)).1⟩

/-- A successful first response. -/
def respFirst : ApiResponse :=
  { ok := true, status := 200, translatedText := some "first" }

/-- A successful second response. -/
def respSecond : ApiResponse :=
  { ok := true, status := 200, translatedText := some "second" }

/-- Trace: a first translation succeeds; a second one is started (nothing to
abort — the ref was already nulled), the clipboard write of the first result
fails while the second attempt is in flight, then the second attempt resolves
successfully and non-cancelled. -/
def c7Trace : List Event :=
  [.mount, .setInput "hello world", .translate true, .resolve 0 respFirst,
   .translate true, .copy .failure, .resolve 0 respSecond]

/-- The state just before the final completion of the C7 trace. -/
def c7Before : CState :=
  run initState (c7Trace.take 6)

/-- The final state of the C7 trace. -/
def c7State : CState :=
  run initState c7Trace

/-- Claim C7 (counterexample): the resolving attempt (controller 1) is
non-cancelled and resolves 2xx with non-empty `translatedText`, yet the final
state's `error` is not cleared: the success branch never touches `error`, so
the clipboard failure recorded during the attempt's flight persists next to
the stored result. -/
theorem c7_success_completion_error_not_cleared :
    (c7Before.pending.map Attempt.cid = [1]
      ∧ ¬ 1 ∈ c7Before.aborted
      ∧ respSecond.ok = true ∧ respSecond.translatedText = some "second")
    ∧ c7State.translatedText = "second"
    ∧ c7State.loading = false
    ∧ c7State.error = "Failed to copy text" := by
  decide

/-- Claim C7 (amended): a non-cancelled attempt resolving 2xx with a non-empty
`translatedText` field stores that value, sets `loading` false, closes the
mobile filter overlay, and schedules the deferred animator run exactly when
running client-side; the completion leaves `error` at whatever value it holds
at resolution time (it was cleared at the attempt's start, not here). -/
theorem c7_success_completion_amended :
    ∀ (s : CState) (a : Attempt) (r : ApiResponse) (t : String),
      ¬ a.cid ∈ s.aborted → r.ok = true → r.translatedText = some t → t ≠ "" →
      resolveAttempt s a r =
        { s with translatedText := t
               , isFilterOpen := false
               , animScheduled := s.isClient
               , loading := false
               , abortRef := none } := by
  intro s a r t hab hok ht hne
  have hok2 : ¬ (r.ok = false) := by rw [hok]; decide
  have hcond : ¬ (r.translatedText = none ∨ r.translatedText = some "") := by
    rw [ht]
    rintro (h | h)
    · exact Option.noConfusion h
    · exact hne (Option.some.inj h)
  unfold resolveAttempt
  rw [if_neg hab, if_neg hok2, if_neg hcond, ht]
  rfl

/-- The spec's own success scenario: input "hello world", an attempt in
flight. -/
def c7WitnessState : CState :=
  { initState with inputText := "hello world", loading := true, abortRef := some 0 }

/-- Witness for C7 (amended) at the spec's example response. -/
theorem c7_witness :
    resolveAttempt c7WitnessState
        { cid := 0, text := "hello world", level := "Use moderate internet slang and abbreviations" }
        { ok := true, status := 200, translatedText := some "omg hello world fr fr" }
      = { c7WitnessState with
            translatedText := "omg hello world fr fr"
            , isFilterOpen := false
            , animScheduled := c7WitnessState.isClient
            , loading := false
            , abortRef := none } :=
  c7_success_completion_amended c7WitnessState
    { cid := 0, text := "hello world", level := "Use moderate internet slang and abbreviations" }
    { ok := true, status := 200, translatedText := some "omg hello world fr fr" }
    "omg hello world fr fr" (by decide) rfl rfl (by decide)

lemma animateText_some (ic hr : Bool) (text : String) (elements : List String)
    (h1 : ic = true) (h2 : hr = true) (h3 : text ≠ "") (h4 : elements ≠ []) :
    animateText ic hr text elements = some (gsapFromTo elements.length) := by
  have hc1 : ¬ (ic = false ∨ hr = false ∨ text = "") := by simp [h1, h2, h3]
  have hc2 : ¬ (elements.length = 0) := by simpa [List.length_eq_zero] using h4
  unfold animateText
  rw [if_neg hc1, if_neg hc2]

lemma animateText_nil (ic hr : Bool) (text : String) :
    animateText ic hr text [] = none := by
  unfold animateText
  split
  · rfl
  · rfl

/-- Claim C8: every animator invocation on a non-empty rendered element
sequence first resets all elements to the initial offset/transparent state
(y = 50, opacity = 0) and plays the same schedule regardless of the elements'
prior visual states — so replaying twice on the same result produces the same
transient visual states both times; the invocation changes no component state
(in particular `translatedText`); and it is a no-op when the element sequence
is empty. -/
theorem c8_animator_resets_and_is_idempotent :
    (∀ (s : CState) (hr : Bool) (elements : List String) (vs : List VisualState),
        s.isClient = true → hr = true → s.translatedText ≠ "" → elements ≠ [] →
        invokeAnimator s hr elements vs
          = (s, List.replicate elements.length { y := 50, opacity := 0 },
              some (gsapFromTo elements.length)))
    ∧ (∀ (s : CState) (hr : Bool) (elements : List String) (vs vs2 : List VisualState),
        s.isClient = true → hr = true → s.translatedText ≠ "" → elements ≠ [] →
        invokeAnimator s hr elements vs = invokeAnimator s hr elements vs2)
    ∧ (∀ (s : CState) (hr : Bool) (elements : List String) (vs : List VisualState),
        (invokeAnimator s hr elements vs).1 = s)
    ∧ (∀ (s : CState) (hr : Bool) (vs : List VisualState),
        invokeAnimator s hr [] vs = (s, vs, none)) := by
  refine ⟨?_, ?_, ?_, ?_⟩
  · intro s hr elements vs h1 h2 h3 h4
    unfold invokeAnimator
    rw [animateText_some s.isClient hr s.translatedText elements h1 h2 h3 h4]
    rfl
  · intro s hr elements vs vs2 h1 h2 h3 h4
    unfold invokeAnimator
    rw [animateText_some s.isClient hr s.translatedText elements h1 h2 h3 h4]
  · intro s hr elements vs
    unfold invokeAnimator
    split <;> rfl
  · intro s hr vs
    unfold invokeAnimator
    rw [animateText_nil]

/-- A client-side state showing a one-line result. -/
def c8State : CState :=
  { initState with isClient := true, translatedText := "yo" }

/-- Witness for C8 at a concrete one-element sequence. -/
theorem c8_witness :
    invokeAnimator c8State true ["yo"] []
      = (c8State, List.replicate 1 { y := 50, opacity := 0 }, some (gsapFromTo 1)) :=
  c8_animator_resets_and_is_idempotent.1 c8State true ["yo"] [] rfl rfl (by decide) (by decide)

/-- Claim C9: with non-empty `translatedText` on the client, a successful
clipboard write sets `copied` and queues the fixed 2000 ms revert timer; the
timer's callback resets `copied` to false unconditionally — independent of
any translation started in the interim, since neither a translate start, a
level selection, nor any completion touches `copied`; a clipboard rejection
surfaces the error message instead. -/
theorem c9_copied_flag_lifecycle :
    (∀ s : CState, s.isClient = true → s.translatedText ≠ "" →
        handleCopy s .success = { s with copied := true, copyTimer := some 2000 }
        ∧ handleCopy s .failure = { s with error := "Failed to copy text" })
    ∧ (∀ s : CState, fireCopyTimer s = { s with copied := false, copyTimer := none })
    ∧ (∀ (s : CState) (force : Bool) (sel : String),
        (handleTranslate s force sel).copied = s.copied)
    ∧ (∀ (s : CState) (levelId : String), (handleLevelSelect s levelId).copied = s.copied)
    ∧ (∀ (s : CState) (i : Nat) (r : ApiResponse),
        (resolveStep s i r).copied = s.copied) := by
  refine ⟨?_, fun s => rfl, handleTranslate_copied, handleLevelSelect_copied, resolveStep_copied⟩
  intro s h1 h2
  have hc : ¬ (s.isClient = false ∨ s.translatedText = "") := by simp [h1, h2]
  constructor
  · unfold handleCopy
    rw [if_neg hc]
  · unfold handleCopy
    rw [if_neg hc]

/-- A client-side state holding a copyable result. -/
def c9State : CState :=
  { initState with isClient := true, translatedText := "omg" }

/-- Witness for C9's clipboard conjunct at a concrete state. -/
theorem c9_witness :
    handleCopy c9State .success = { c9State with copied := true, copyTimer := some 2000 }
    ∧ handleCopy c9State .failure = { c9State with error := "Failed to copy text" } :=
  c9_copied_flag_lifecycle.1 c9State rfl (by decide)

/-- Trace for C10: a first translation succeeds, a second one starts, the
clipboard write fails mid-flight, then the second attempt completes
successfully while never having been cancelled. -/
def c10Trace : List Event :=
  [.mount, .setInput "sup", .translate true,
   .resolve 0 { ok := true, status := 200, translatedText := some "sup fam" },
   .translate true, .copy .failure,
   .resolve 0 { ok := true, status := 200, translatedText := some "yo fam" }]

/-- The final state of the C10 trace. -/
def c10State : CState :=
  run initState c10Trace

/-- Claim C10 (counterexample): after a non-cancelled successful completion
(no controller was ever aborted in this trace), `translatedText` and `error`
are simultaneously non-empty: the success branch stores the result but does
not clear the error recorded by the failed clipboard write. -/
theorem c10_result_and_error_both_set :
    c10State.aborted = []
    ∧ c10State.pending = []
    ∧ c10State.loading = false
    ∧ c10State.translatedText = "yo fam"
    ∧ c10State.error = "Failed to copy text"
    ∧ c10State.translatedText ≠ ""
    ∧ c10State.error ≠ "" := by
  decide

/-- Claim C10 (amended): every non-cancelled completion either clears
`translatedText` (all failure modes do) or leaves `error` unchanged (the
success branch does); since a successful completion does not clear a
previously recorded error, a result and an error can end up simultaneously
non-empty. -/
theorem c10_noncancelled_completion_dichotomy :
    ∀ (s : CState) (a : Attempt) (r : ApiResponse), ¬ a.cid ∈ s.aborted →
      (resolveAttempt s a r).translatedText = ""
      ∨ (resolveAttempt s a r).error = s.error := by
  intro s a r hab
  unfold resolveAttempt
  rw [if_neg hab]
  split
  · left; rfl
  · split
    · left; rfl
    · right; rfl

/-- Witness for C10 (amended) at a concrete non-cancelled failing
completion. -/
theorem c10_witness :
    (resolveAttempt initState { cid := 0, text := "x", level := "p" }
        { ok := false, status := 404, translatedText := none }).translatedText = ""
    ∨ (resolveAttempt initState { cid := 0, text := "x", level := "p" }
        { ok := false, status := 404, translatedText := none }).error = initState.error :=
  c10_noncancelled_completion_dichotomy initState
    { cid := 0, text := "x", level := "p" }
    { ok := false, status := 404, translatedText := none } (by decide)
